import Mathlib

/-!
Shallow embedding of the image fallback and format-negotiation subsystem of
`src/js/image-enhancements.js` (class `ImageEnhancementManager` plus the global
`handleAboutImageError` / `handleReviewImageError` functions), together with
proofs about its fallback state machine, picture-element builder, metadata
loading and fallback statistics.

Modelling conventions:
* A DOM image element is captured by the fields the subsystem reads or writes:
  `src`, the `data-fallback-src` / `data-fallback-level` / `data-category` /
  `data-image-name` attributes, its class list, whether `style.display` is
  `none`, and the class list / synthesized children of its closest container.
* `classList.add` / `classList.remove` are modelled on `List String` with DOM
  token-list semantics (`add` is a no-op when the token is present).
* JavaScript string truthiness (`undefined` absent values are `Option`,
  the empty string is falsy) is made explicit via `truthy`.
* Console logging is ignored except where a claim mentions it
  (`loadImageMetadata` returns its warning messages alongside its result).
-/

namespace ImageEnhancements

/-- JavaScript truthiness for string values: the empty string is falsy.
`undefined` attribute values are modelled as `Option.none` separately. -/
def truthy (s : String) : Bool := s ≠ ""

/-- `element.classList.add c`: appends `c` unless it is already present. -/
def addClass (cs : List String) (c : String) : List String :=
  if c ∈ cs then cs else cs ++ [c]

/-- `element.classList.remove c`: removes every occurrence of `c`. -/
def removeClass (cs : List String) (c : String) : List String :=
  cs.filter (fun x => x ≠ c)

/-- The closest structural container of a managed image
(`.image-container, .service-card, .hero-image, .about-image, .enhanced-picture`):
its class list and the number of synthesized `.placeholder-content` and
`.error-placeholder` children (`createPlaceholderContent` and
`createErrorPlaceholder` guard on `querySelector` finding one already). -/
structure Container where
  classes : List String
  placeholderContents : Nat
  errorPlaceholders : Nat
deriving DecidableEq, Repr

/-- The state of a managed `img` element, as read and written by
`handleEnhancedImageError`, its three tier handlers and `handleImageLoad`. -/
structure Img where
  src : String
  fallbackSrc : Option String
  fallbackLevel : Nat
  classes : List String
  displayNone : Bool
  category : String
  imageName : String
  container : Option Container
deriving DecidableEq, Repr

/-- `createPlaceholderContent(container, category)`: appends one
`.placeholder-content` child unless the container already has one. -/
def createPlaceholderContent (c : Container) : Container :=
  if c.placeholderContents > 0 then c
  else { c with placeholderContents := c.placeholderContents + 1 }

/-- `createErrorPlaceholder(container, category)`: appends one
`.error-placeholder` child unless the container already has one. -/
def createErrorPlaceholder (c : Container) : Container :=
  if c.errorPlaceholders > 0 then c
  else { c with errorPlaceholders := c.errorPlaceholders + 1 }

/-- The tertiary tier's container effect: `classList.add('image-placeholder')`
followed by `createPlaceholderContent`. -/
def markContainerPlaceholder (c : Container) : Container :=
  createPlaceholderContent { c with classes := addClass c.classes "image-placeholder" }

/-- The final tier's container effect: `classList.add('image-failed')`
followed by `createErrorPlaceholder`. -/
def markContainerFailed (c : Container) : Container :=
  createErrorPlaceholder { c with classes := addClass c.classes "image-failed" }

/-- `attemptTertiaryFallback(img)`: set `data-fallback-level` to 2, hide the
element, tag it `fallback-tertiary`, and mark the container (when present) as
`image-placeholder` with synthesized placeholder content. -/
def attemptTertiaryFallback (img : Img) : Img :=
  { img with
    fallbackLevel := 2
    displayNone := true
    classes := addClass img.classes "fallback-tertiary"
    container := img.container.map markContainerPlaceholder }

/-- `attemptSecondaryFallback(img)`: when `data-fallback-src` is truthy and
differs from the failed `src`, move to level 1 and retry it; otherwise skip
directly to the tertiary fallback. -/
def attemptSecondaryFallback (img : Img) : Img :=
  match img.fallbackSrc with
  | some fb =>
    if truthy fb && fb != img.src then
      { img with
        fallbackLevel := 1
        src := fb
        classes := addClass img.classes "fallback-secondary" }
    else attemptTertiaryFallback img
  | none => attemptTertiaryFallback img

/-- `handleFinalFallback(img)`: set `data-fallback-level` to 3, hide the
element, tag it `fallback-final`, and mark the container (when present) as
`image-failed` with a synthesized error placeholder. -/
def handleFinalFallback (img : Img) : Img :=
  { img with
    fallbackLevel := 3
    displayNone := true
    classes := addClass img.classes "fallback-final"
    container := img.container.map markContainerFailed }

/-- Effect of `handleEnhancedImageError(img)` on the element: dispatch on the
current `data-fallback-level` (level 2 and the `default` branch both reach
`handleFinalFallback`). -/
def handleEnhancedImageError (img : Img) : Img :=
  match img.fallbackLevel with
  | 0 => attemptSecondaryFallback img
  | 1 => attemptTertiaryFallback img
  | _ => handleFinalFallback img

/-- Whether the element carries a configured alternate source that is truthy
and differs from the source that just failed (the guard of
`attemptSecondaryFallback`). -/
def hasDistinctFallback (img : Img) : Bool :=
  match img.fallbackSrc with
  | some fb => truthy fb && fb != img.src
  | none => false

/-- `n` successive load-failure events processed by `handleEnhancedImageError`. -/
def iterateError : Nat → Img → Img
  | 0, img => img
  | n + 1, img => iterateError n (handleEnhancedImageError img)

/-- `handleImageLoad(img)`: tag the element `loaded`, drop `loading`, and clear
the `image-placeholder` / `image-failed` marks from the container. -/
def handleImageLoad (img : Img) : Img :=
  { img with
    classes := removeClass (addClass img.classes "loaded") "loading"
    container := img.container.map fun c =>
      { c with classes := removeClass (removeClass c.classes "image-placeholder") "image-failed" } }

/-- The state of an about-section image as read and written by the global
`handleAboutImageError`: the element fields plus the class lists of its closest
`.team-member`, `.team-primary` and (for the final tier)
`.team-member, .team-primary, .about-team-gallery` containers. -/
structure AboutImg where
  src : String
  fallbackSrc : Option String
  fallbackLevel : Nat
  classes : List String
  displayNone : Bool
  imageName : String
  teamMember : Option (List String)
  teamPrimary : Option (List String)
  aboutContainer : Option (List String)
deriving DecidableEq, Repr

/-- `handleAboutImageError(img)`. At level 0 with no distinct fallback source
the JavaScript re-invokes itself on the unchanged element; the recursion is
given explicit fuel, `none` meaning the call never returns. -/
def handleAboutImageError : Nat → AboutImg → Option AboutImg
  | 0, _ => none
  | fuel + 1, img =>
    match img.fallbackLevel with
    | 0 =>
      match img.fallbackSrc with
      | some fb =>
        if truthy fb && fb != img.src then
          some { img with
                 fallbackLevel := 1
                 src := fb
                 classes := addClass img.classes "fallback-secondary" }
        else handleAboutImageError fuel img
      | none => handleAboutImageError fuel img
    | 1 =>
      let img₂ : AboutImg :=
        { img with
          fallbackLevel := 2
          displayNone := true
          classes := addClass img.classes "fallback-tertiary" }
      some (match img₂.teamMember with
        | some tm => { img₂ with teamMember := some (addClass tm "team-fallback") }
        | none =>
          match img₂.teamPrimary with
          | some tp => { img₂ with teamPrimary := some (addClass tp "team-fallback") }
          | none => img₂)
    | _ =>
      let img₂ : AboutImg :=
        { img with
          fallbackLevel := 3
          displayNone := true
          classes := addClass img.classes "fallback-final" }
      some { img₂ with aboutContainer := img₂.aboutContainer.map (addClass · "image-failed") }

/-- The `.review-background` node of a review card: its class list and its
inline `background` style. -/
structure ReviewBackground where
  classes : List String
  background : String
deriving DecidableEq, Repr

/-- The gradient the review handler installs as the level-2 placeholder
(whitespace of the template literal normalized). -/
def reviewGradient : String :=
  "linear-gradient(135deg, rgba(41, 53, 78, 0.03) 0%, rgba(16, 185, 129, 0.02) 50%, rgba(248, 250, 252, 0.05) 100%)"

/-- The state of a review-section image as read and written by the global
`handleReviewImageError`: the element fields plus its closest
`.review-card.enhanced` class list and its `.review-background` node. -/
structure ReviewImg where
  src : String
  fallbackSrc : Option String
  fallbackLevel : Nat
  classes : List String
  displayNone : Bool
  imageName : String
  reviewCard : Option (List String)
  reviewBackground : Option ReviewBackground
deriving DecidableEq, Repr

/-- `handleReviewImageError(img)`. At level 0 with no distinct fallback source
the JavaScript re-invokes itself on the unchanged element; the recursion is
given explicit fuel, `none` meaning the call never returns. -/
def handleReviewImageError : Nat → ReviewImg → Option ReviewImg
  | 0, _ => none
  | fuel + 1, img =>
    match img.fallbackLevel with
    | 0 =>
      match img.fallbackSrc with
      | some fb =>
        if truthy fb && fb != img.src then
          some { img with
                 fallbackLevel := 1
                 src := fb
                 classes := addClass img.classes "fallback-secondary" }
        else handleReviewImageError fuel img
      | none => handleReviewImageError fuel img
    | 1 =>
      let img₂ : ReviewImg :=
        { img with
          fallbackLevel := 2
          displayNone := true
          classes := addClass img.classes "fallback-tertiary" }
      some (match img₂.reviewCard, img₂.reviewBackground with
        | some card, some bg =>
          { img₂ with
            reviewBackground := some { classes := addClass bg.classes "review-fallback"
                                       background := reviewGradient }
            reviewCard := some (addClass card "review-no-image") }
        | _, _ => img₂)
    | _ =>
      let img₂ : ReviewImg :=
        { img with
          fallbackLevel := 3
          displayNone := true
          classes := addClass img.classes "fallback-final" }
      some (match img₂.reviewCard with
        | some card =>
          { img₂ with
            reviewCard := some (addClass card "review-image-failed")
            reviewBackground := img₂.reviewBackground.map fun bg =>
              { bg with background := "#ffffff" } }
        | none => img₂)

/-- One per-image record of the metadata file
(`src`, `webp`, `optimized`, `alt`, `priority`; absent keys are `none`). -/
structure ImageData where
  src : String
  webp : Option String
  optimized : Option String
  alt : Option String
  priority : Option String
deriving DecidableEq, Repr

/-- The `seo.openGraph` section of the metadata. -/
structure OpenGraph where
  defaultImage : String
deriving DecidableEq, Repr

/-- The `seo` section of the metadata. -/
structure SeoData where
  openGraph : OpenGraph
deriving DecidableEq, Repr

/-- The loaded metadata document: category name → (image name → record),
modelled as insertion-ordered association lists, plus the `seo` section. -/
structure Metadata where
  categories : List (String × List (String × ImageData))
  seo : SeoData
deriving DecidableEq, Repr

/-- `createFallbackMetadata()`: the skeleton substituted when the metadata file
cannot be loaded — the four category entries empty, plus the default
social-preview image. -/
def createFallbackMetadata : Metadata :=
  { categories := [("hero", []), ("services", []), ("about", []), ("reviews", [])]
    seo := { openGraph := { defaultImage := "images/stock/hero/hero-main-plumber.png" } } }

/-- `loadImageMetadata()`: the fetch-and-parse outcome is the input; on any
failure the skeleton is substituted and a warning logged. Returns the resulting
metadata together with the warning messages emitted. -/
def loadImageMetadata (fetched : Except String Metadata) : Metadata × List String :=
  match fetched with
  | .ok m => (m, [])
  | .error _ => (createFallbackMetadata, ["Could not load image metadata, using fallback system"])

/-- `this.imageMetadata?.[category]?.[imageName]`. -/
def lookupImage (m : Metadata) (category imageName : String) : Option ImageData :=
  match m.categories.find? (fun p => p.1 == category) with
  | some (_, entries) =>
    match entries.find? (fun p => p.1 == imageName) with
    | some (_, data) => some data
    | none => none
  | none => none

/-- `getFallbackImage(category)`: the fixed category → generic fallback table. -/
def getFallbackImage (category : String) : String :=
  if category = "hero" then "images/hero-bg.jpg"
  else if category = "services" then "images/residential-service.jpg"
  else if category = "about" then "images/radius-logo2.png"
  else if category = "reviews" then "images/hero-bg.jpg"
  else "images/hero-bg.jpg"

/-- The name transformation of the alt-text templates: every hyphen of
`imageName` replaced by a space (a global regex replace in the source). -/
def replaceHyphens (s : String) : String :=
  ⟨s.data.map fun c => if c = '-' then ' ' else c⟩

/-- `generateAltText(category, imageName)`: the generated alt-text templates. -/
def generateAltText (category imageName : String) : String :=
  if category = "hero" then
    "Professional plumbing services Milwaukee - " ++ replaceHyphens imageName
  else if category = "services" then
    replaceHyphens imageName ++ " - Radius Works Milwaukee plumbing services"
  else if category = "about" then
    "Radius Works team - " ++ replaceHyphens imageName
  else if category = "reviews" then
    "Customer satisfaction - " ++ replaceHyphens imageName
  else
    "Radius Works - " ++ replaceHyphens imageName

/-- `getImageMimeType(src)`: MIME type from the file extension. -/
def getImageMimeType (src : String) : String :=
  let extension := ((src.splitOn ".").getLastD "").toLower
  if extension = "jpg" then "image/jpeg"
  else if extension = "jpeg" then "image/jpeg"
  else if extension = "png" then "image/png"
  else if extension = "webp" then "image/webp"
  else if extension = "gif" then "image/gif"
  else if extension = "svg" then "image/svg+xml"
  else "image/jpeg"

/-- One `source` child of a built picture element: its `srcset`, its `type`
attribute (`mimeType` here) and its `data-format` tag. -/
structure PicSource where
  srcset : String
  mimeType : String
  format : String
deriving DecidableEq, Repr

/-- A built picture unit: the `picture` class/name attributes, its ordered
`source` children, and the terminal `img` element's attributes. -/
structure Picture where
  className : String
  category : String
  imageName : String
  sources : List PicSource
  imgSrc : String
  imgAlt : String
  imgLoading : String
  imgClassName : String
  imgFallbackSrc : String
deriving DecidableEq, Repr

/-- `createFallbackPictureElement(category, imageName, className, options)`:
the degraded unit built when per-image metadata is missing. -/
def createFallbackPictureElement (category imageName className : String)
    (eager : Bool) : Picture :=
  { className := "enhanced-picture fallback-picture " ++ className
    category := category
    imageName := imageName
    sources := []
    imgSrc := getFallbackImage category
    imgAlt := generateAltText category imageName
    imgLoading := if eager then "eager" else "lazy"
    imgClassName := "enhanced-image fallback-image"
    imgFallbackSrc := getFallbackImage category }

/-- `createPictureElement(category, imageName, className, options)` over the
loaded metadata `md`, with `webpSupported` the result of the
`checkWebPSupport()` probe (a pure function of the runtime environment). -/
def createPictureElement (md : Metadata) (webpSupported : Bool)
    (category imageName className : String) (eager : Bool) : Picture :=
  match lookupImage md category imageName with
  | none => createFallbackPictureElement category imageName className eager
  | some imageData =>
    let webpSources : List PicSource :=
      match imageData.webp with
      | some w =>
        if truthy w && webpSupported then
          [{ srcset := w, mimeType := "image/webp", format := "webp" }]
        else []
      | none => []
    let standardSources : List PicSource :=
      match imageData.optimized with
      | some o =>
        if truthy o then
          [{ srcset := o, mimeType := getImageMimeType o, format := "standard" }]
        else []
      | none => []
    { className := "enhanced-picture " ++ className
      category := category
      imageName := imageName
      sources := webpSources ++ standardSources
      imgSrc := imageData.src
      imgAlt :=
        match imageData.alt with
        | some a => if truthy a then a else generateAltText category imageName
        | none => generateAltText category imageName
      imgLoading := if imageData.priority == some "high" || eager then "eager" else "lazy"
      imgClassName := "enhanced-image"
      imgFallbackSrc := getFallbackImage category }

/-- One entry of `this.fallbackStats`: the levels observed (in order) and the
occurrence count. -/
structure FallbackStat where
  levels : List Nat
  count : Nat
deriving DecidableEq, Repr

/-- `this.fallbackStats`: an insertion-ordered mapping key → stat, where the
key is `category ++ "/" ++ imageName`. The field starts out `undefined`
(`Option.none`). -/
abbrev FallbackStats := List (String × FallbackStat)

/-- The mutation `trackFallbackUsage` performs on the key's entry
(`levels.push(fallbackLevel)` and `count++`), phrased as a keyed map update. -/
def updateEntry (key : String) (fallbackLevel : Nat)
    (p : String × FallbackStat) : String × FallbackStat :=
  if p.1 == key then
    (p.1, { levels := p.2.levels ++ [fallbackLevel], count := p.2.count + 1 })
  else p

/-- `trackFallbackUsage(category, imageName, fallbackLevel)`: initialize the
mapping and the key's entry when absent, then push the level and increment the
count. -/
def trackFallbackUsage (stats : Option FallbackStats)
    (category imageName : String) (fallbackLevel : Nat) : FallbackStats :=
  let s := stats.getD []
  let key := category ++ "/" ++ imageName
  let s₂ := if (s.find? (fun p => p.1 == key)).isSome then s
            else s ++ [(key, { levels := [], count := 0 })]
  s₂.map (updateEntry key fallbackLevel)

/-- `resetFallbackStats()`: sets the mapping back to `{}`. -/
def resetFallbackStats : FallbackStats := []

/-- Combined effect of one `handleEnhancedImageError` call on the element and
on the statistics accumulator (the handler records the pre-transition level). -/
def handleEnhancedImageErrorWithStats (img : Img) (stats : Option FallbackStats) :
    Img × FallbackStats :=
  (handleEnhancedImageError img,
   trackFallbackUsage stats img.category img.imageName img.fallbackLevel)

/-- An operation on the statistics accumulator: a `trackFallbackUsage` call or
a `resetFallbackStats` call. -/
inductive StatsOp where
  | record (category imageName : String) (level : Nat)
  | reset
deriving DecidableEq, Repr

/-- Apply one statistics operation. -/
def applyStatsOp (stats : Option FallbackStats) : StatsOp → Option FallbackStats
  | .record c n l => some (trackFallbackUsage stats c n l)
  | .reset => some resetFallbackStats

/-- Run a sequence of statistics operations. -/
def runStatsOps (stats : Option FallbackStats) (ops : List StatsOp) : Option FallbackStats :=
  ops.foldl applyStatsOp stats

/-- Look up one key's entry of the accumulator. -/
def lookupStat (stats : FallbackStats) (key : String) : Option FallbackStat :=
  (stats.find? (fun p => p.1 == key)).map (fun p => p.2)

/-! ### Helper lemmas about the DOM token-list model -/

theorem mem_addClass_self (cs : List String) (c : String) : c ∈ addClass cs c := by
  unfold addClass
  split
  · assumption
  · simp

theorem addClass_idem (cs : List String) (c : String) :
    addClass (addClass cs c) c = addClass cs c := by
  unfold addClass
  by_cases h : c ∈ cs
  · simp [h]
  · simp [h]

theorem createErrorPlaceholder_classes (c : Container) :
    (createErrorPlaceholder c).classes = c.classes := by
  unfold createErrorPlaceholder
  split <;> rfl

theorem createErrorPlaceholder_pos (c : Container) :
    0 < (createErrorPlaceholder c).errorPlaceholders := by
  unfold createErrorPlaceholder
  split
  · omega
  · simp

theorem createErrorPlaceholder_of_pos (c : Container) (h : 0 < c.errorPlaceholders) :
    createErrorPlaceholder c = c := by
  unfold createErrorPlaceholder
  simp [h]

theorem createErrorPlaceholder_mark_fix (d : Container)
    (hd : addClass d.classes "image-failed" = d.classes)
    (hp : 0 < d.errorPlaceholders) :
    createErrorPlaceholder { d with classes := addClass d.classes "image-failed" } = d := by
  rw [hd]
  exact createErrorPlaceholder_of_pos d hp

theorem markContainerFailed_idem (c : Container) :
    markContainerFailed (markContainerFailed c) = markContainerFailed c := by
  unfold markContainerFailed
  exact createErrorPlaceholder_mark_fix _
    (by rw [createErrorPlaceholder_classes]; exact addClass_idem _ _)
    (createErrorPlaceholder_pos _)

/-! ### The fallback level after one failure event -/

theorem level_attemptSecondaryFallback (img : Img) :
    (attemptSecondaryFallback img).fallbackLevel =
      if hasDistinctFallback img then 1 else 2 := by
  unfold attemptSecondaryFallback hasDistinctFallback
  cases hfb : img.fallbackSrc with
  | none => simp [attemptTertiaryFallback]
  | some fb =>
    cases hc : truthy fb && fb != img.src <;> simp [hc, attemptTertiaryFallback]

theorem level_handleEnhancedImageError (img : Img) :
    (handleEnhancedImageError img).fallbackLevel =
      if img.fallbackLevel = 0 then (if hasDistinctFallback img then 1 else 2)
      else if img.fallbackLevel = 1 then 2
      else 3 := by
  unfold handleEnhancedImageError
  cases hl : img.fallbackLevel with
  | zero => simp [level_attemptSecondaryFallback]
  | succ n =>
    cases n with
    | zero => simp [attemptTertiaryFallback]
    | succ m => simp [handleFinalFallback]

theorem level_handleEnhancedImageError_le_three (img : Img) :
    (handleEnhancedImageError img).fallbackLevel ≤ 3 := by
  rw [level_handleEnhancedImageError]
  split_ifs <;> omega

theorem level_handleEnhancedImageError_ge (img : Img) (h : img.fallbackLevel ≤ 3) :
    img.fallbackLevel ≤ (handleEnhancedImageError img).fallbackLevel := by
  rw [level_handleEnhancedImageError]
  split_ifs <;> omega

theorem iterateError_succ_outer (n : Nat) (img : Img) :
    iterateError (n + 1) img = handleEnhancedImageError (iterateError n img) := by
  induction n generalizing img with
  | zero => rfl
  | succ m ih =>
    show iterateError (m + 1) (handleEnhancedImageError img) = _
    rw [ih]
    rfl

theorem iterateError_le_three (n : Nat) (img : Img) (h : img.fallbackLevel ≤ 3) :
    (iterateError n img).fallbackLevel ≤ 3 := by
  cases n with
  | zero => exact h
  | succ m =>
    rw [iterateError_succ_outer]
    exact level_handleEnhancedImageError_le_three _

theorem iterateError_mono_succ (n : Nat) (img : Img) (h : img.fallbackLevel ≤ 3) :
    (iterateError n img).fallbackLevel ≤ (iterateError (n + 1) img).fallbackLevel := by
  rw [iterateError_succ_outer]
  exact level_handleEnhancedImageError_ge _ (iterateError_le_three n img h)

/-- C1: over any sequence of load-failure events processed by
`handleEnhancedImageError`, an element's `fallbackLevel` never decreases; and
for an element at `Primary` (level 0) whose configured alternate source exists
and differs from the failed source, successive failure events advance the
level by exactly one tier each (0 to 1, 1 to 2, 2 to 3), so three failures
reach `Failed` (level 3). -/
theorem fallbackLevel_monotone_and_advances_one_tier (img : Img)
    (h : img.fallbackLevel ≤ 3) :
    (∀ n m : Nat, n ≤ m →
      (iterateError n img).fallbackLevel ≤ (iterateError m img).fallbackLevel)
    ∧ (img.fallbackLevel = 0 → hasDistinctFallback img = true →
      (iterateError 1 img).fallbackLevel = 1
      ∧ (iterateError 2 img).fallbackLevel = 2
      ∧ (iterateError 3 img).fallbackLevel = 3) := by
  constructor
  · intro n m hnm
    induction hnm with
    | refl => exact le_rfl
    | step _ ih => exact le_trans ih (iterateError_mono_succ _ img h)
  · intro h0 hd
    have l1 : (iterateError 1 img).fallbackLevel = 1 := by
      rw [iterateError_succ_outer]
      simp only [iterateError]
      rw [level_handleEnhancedImageError]
      simp [h0, hd]
    have l2 : (iterateError 2 img).fallbackLevel = 2 := by
      rw [iterateError_succ_outer, level_handleEnhancedImageError]
      simp [l1]
    have l3 : (iterateError 3 img).fallbackLevel = 3 := by
      rw [iterateError_succ_outer, level_handleEnhancedImageError]
      simp [l2]
    exact ⟨l1, l2, l3⟩

/-- The concrete element used to instantiate C1: primary source failed, a
distinct alternate configured. -/
def c1Elem : Img :=
  { src := "images/stock/hero/hero-main-plumber.png"
    fallbackSrc := some "images/hero-bg.jpg"
    fallbackLevel := 0
    classes := []
    displayNone := false
    category := "hero"
    imageName := "hero-main-plumber"
    container := none }

/-- Witness for C1 at a concrete element. -/
theorem fallbackLevel_monotone_and_advances_one_tier_witness :
    (iterateError 0 c1Elem).fallbackLevel ≤ (iterateError 3 c1Elem).fallbackLevel
    ∧ (iterateError 3 c1Elem).fallbackLevel = 3 :=
  ⟨(fallbackLevel_monotone_and_advances_one_tier c1Elem (by decide)).1 0 3 (by omega),
   ((fallbackLevel_monotone_and_advances_one_tier c1Elem (by decide)).2
      (by decide) (by decide)).2.2⟩

theorem handleFinalFallback_idem (t : Img) :
    handleFinalFallback (handleFinalFallback t) = handleFinalFallback t := by
  unfold handleFinalFallback
  simp only [addClass_idem, Option.map_map]
  have hcomp : markContainerFailed ∘ markContainerFailed = markContainerFailed := by
    funext c
    exact markContainerFailed_idem c
  rw [hcomp]

/-- C3: `Failed` is absorbing and idempotent — for an element put into the
`Failed` state (level 3) by `handleFinalFallback`, a further failure event
leaves the whole element state unchanged: the level stays 3, the element stays
hidden, and its classes, its container's marking and the synthesized error
indicator are untouched. -/
theorem failed_state_absorbing (s t : Img) (h : s = handleFinalFallback t) :
    s.fallbackLevel = 3 ∧ s.displayNone = true ∧ handleEnhancedImageError s = s := by
  subst h
  refine ⟨rfl, rfl, ?_⟩
  show handleFinalFallback (handleFinalFallback t) = handleFinalFallback t
  exact handleFinalFallback_idem t

/-- The concrete element used to instantiate C3, before its final failure. -/
def c3Elem : Img :=
  { src := "images/stock/hero/pic.png"
    fallbackSrc := none
    fallbackLevel := 2
    classes := ["fallback-tertiary"]
    displayNone := true
    category := "hero"
    imageName := "pic"
    container := some { classes := ["image-placeholder"], placeholderContents := 1, errorPlaceholders := 0 } }

/-- Witness for C3 at a concrete element in the `Failed` state. -/
theorem failed_state_absorbing_witness :
    (handleFinalFallback c3Elem).fallbackLevel = 3
    ∧ (handleFinalFallback c3Elem).displayNone = true
    ∧ handleEnhancedImageError (handleFinalFallback c3Elem) = handleFinalFallback c3Elem :=
  failed_state_absorbing (handleFinalFallback c3Elem) c3Elem rfl

/-- The guard of the about handler's secondary tier. -/
def AboutImg.hasDistinctFallback (img : AboutImg) : Bool :=
  match img.fallbackSrc with
  | some fb => truthy fb && fb != img.src
  | none => false

/-- The guard of the review handler's secondary tier. -/
def ReviewImg.hasDistinctFallback (img : ReviewImg) : Bool :=
  match img.fallbackSrc with
  | some fb => truthy fb && fb != img.src
  | none => false

theorem handleAboutImageError_diverges (fuel : Nat) (img : AboutImg)
    (h0 : img.fallbackLevel = 0) (hd : AboutImg.hasDistinctFallback img = false) :
    handleAboutImageError fuel img = none := by
  induction fuel with
  | zero => rfl
  | succ n ih =>
    unfold handleAboutImageError
    rw [h0]
    cases hfb : img.fallbackSrc with
    | none =>
      simp only []
      exact ih
    | some fb =>
      have hd' : (truthy fb && fb != img.src) = false := by
        simpa [AboutImg.hasDistinctFallback, hfb] using hd
      simp only [hd']
      simpa using ih

theorem handleReviewImageError_diverges (fuel : Nat) (img : ReviewImg)
    (h0 : img.fallbackLevel = 0) (hd : ReviewImg.hasDistinctFallback img = false) :
    handleReviewImageError fuel img = none := by
  induction fuel with
  | zero => rfl
  | succ n ih =>
    unfold handleReviewImageError
    rw [h0]
    cases hfb : img.fallbackSrc with
    | none =>
      simp only []
      exact ih
    | some fb =>
      have hd' : (truthy fb && fb != img.src) = false := by
        simpa [ReviewImg.hasDistinctFallback, hfb] using hd
      simp only [hd']
      simpa using ih

/-- C2: at `Primary` (level 0) with no configured alternate source, or with an
alternate equal to the failed source, the manager's failure handler jumps
directly to `Placeholder` (level 2) and terminates; but the about- and
review-specific entry points instead re-invoke themselves on the unchanged
element and never return (`none` for every amount of fuel), never setting
level 2 — the code contradicts the claim for those entry points. -/
theorem primary_without_distinct_secondary (fuel : Nat)
    (img : Img) (aimg : AboutImg) (rimg : ReviewImg)
    (h0 : img.fallbackLevel = 0) (hd : hasDistinctFallback img = false)
    (ha0 : aimg.fallbackLevel = 0) (had : AboutImg.hasDistinctFallback aimg = false)
    (hr0 : rimg.fallbackLevel = 0) (hrd : ReviewImg.hasDistinctFallback rimg = false) :
    (handleEnhancedImageError img).fallbackLevel = 2
    ∧ handleAboutImageError fuel aimg = none
    ∧ handleReviewImageError fuel rimg = none := by
  refine ⟨?_, handleAboutImageError_diverges fuel aimg ha0 had,
          handleReviewImageError_diverges fuel rimg hr0 hrd⟩
  rw [level_handleEnhancedImageError]
  simp [h0, hd]

/-- The concrete manager-handled element used to instantiate C2: its alternate
source equals the source that just failed. -/
def c2Elem : Img :=
  { src := "images/hero-bg.jpg"
    fallbackSrc := some "images/hero-bg.jpg"
    fallbackLevel := 0
    classes := []
    displayNone := false
    category := "hero"
    imageName := "x"
    container := none }

/-- The concrete about-section element used to instantiate C2: no alternate
source configured. -/
def c2AboutElem : AboutImg :=
  { src := "images/stock/about/team.png"
    fallbackSrc := none
    fallbackLevel := 0
    classes := []
    displayNone := false
    imageName := "team"
    teamMember := none
    teamPrimary := none
    aboutContainer := none }

/-- The concrete review-section element used to instantiate C2: its alternate
source equals the source that just failed. -/
def c2ReviewElem : ReviewImg :=
  { src := "images/hero-bg.jpg"
    fallbackSrc := some "images/hero-bg.jpg"
    fallbackLevel := 0
    classes := []
    displayNone := false
    imageName := "r"
    reviewCard := none
    reviewBackground := none }

/-- Witness for C2 at concrete elements and fuel 7. -/
theorem primary_without_distinct_secondary_witness :
    (handleEnhancedImageError c2Elem).fallbackLevel = 2
    ∧ handleAboutImageError 7 c2AboutElem = none
    ∧ handleReviewImageError 7 c2ReviewElem = none :=
  primary_without_distinct_secondary 7 c2Elem c2AboutElem c2ReviewElem
    (by decide) (by decide) (by decide) (by decide) (by decide) (by decide)

theorem mem_removeClass_iff (cs : List String) (a b : String) :
    a ∈ removeClass cs b ↔ a ∈ cs ∧ a ≠ b := by
  unfold removeClass
  simp [List.mem_filter]

theorem mem_addClass_iff (cs : List String) (a c : String) :
    a ∈ addClass cs c ↔ a ∈ cs ∨ a = c := by
  unfold addClass
  split
  · next h => exact ⟨fun ha => Or.inl ha, fun ha => ha.elim id (fun he => he ▸ h)⟩
  · simp

/-- The concrete element used for C4: an element at `Placeholder` (level 2)
carrying the `fallback-tertiary` tag, hidden, inside a container marked
`image-placeholder`. -/
def c4Elem : Img :=
  { src := "images/stock/hero/x.png"
    fallbackSrc := none
    fallbackLevel := 2
    classes := ["fallback-tertiary"]
    displayNone := true
    category := "hero"
    imageName := "x"
    container := some { classes := ["image-placeholder"], placeholderContents := 1, errorPlaceholders := 0 } }

/-- C4 counterexample: a success event processed by `handleImageLoad` does NOT
clear the element's own placeholder presentation tag — `fallback-tertiary`
survives on the element (and the element even stays hidden), contradicting the
claim that all placeholder/failed presentation tags on both the element and
its container are cleared. -/
theorem load_success_keeps_element_placeholder_tag :
    "fallback-tertiary" ∈ (handleImageLoad c4Elem).classes
    ∧ (handleImageLoad c4Elem).displayNone = true := by decide

/-- C4 amended: for every element at any `fallbackLevel`, a success event
marks the element `loaded`, clears its `loading` tag, clears the
`image-placeholder` and `image-failed` marks from its container, and leaves
`fallbackLevel` (and the hidden style) unchanged; the element's own
fallback-tier tags (`fallback-tertiary`, `fallback-final`) are not removed. -/
theorem load_success_marks_loaded_and_clears_container (img : Img) (cc : Container)
    (hc : img.container = some cc) :
    "loaded" ∈ (handleImageLoad img).classes
    ∧ "loading" ∉ (handleImageLoad img).classes
    ∧ (handleImageLoad img).fallbackLevel = img.fallbackLevel
    ∧ (handleImageLoad img).displayNone = img.displayNone
    ∧ (∃ rc, (handleImageLoad img).container = some rc
        ∧ "image-placeholder" ∉ rc.classes ∧ "image-failed" ∉ rc.classes)
    ∧ ("fallback-tertiary" ∈ img.classes → "fallback-tertiary" ∈ (handleImageLoad img).classes)
    ∧ ("fallback-final" ∈ img.classes → "fallback-final" ∈ (handleImageLoad img).classes) := by
  refine ⟨?_, ?_, rfl, rfl, ?_, ?_, ?_⟩
  · simp [handleImageLoad, mem_removeClass_iff, mem_addClass_iff]
  · simp [handleImageLoad, mem_removeClass_iff, mem_addClass_iff]
  · refine ⟨{ cc with classes := removeClass (removeClass cc.classes "image-placeholder") "image-failed" }, ?_, ?_, ?_⟩
    · simp [handleImageLoad, hc]
    · simp [mem_removeClass_iff]
    · simp [mem_removeClass_iff]
  · intro h
    simp [handleImageLoad, mem_removeClass_iff, mem_addClass_iff, h]
  · intro h
    simp [handleImageLoad, mem_removeClass_iff, mem_addClass_iff, h]

/-- Witness for the amended C4 at a concrete element. -/
theorem load_success_marks_loaded_and_clears_container_witness :
    "loaded" ∈ (handleImageLoad c4Elem).classes
    ∧ (handleImageLoad c4Elem).fallbackLevel = c4Elem.fallbackLevel :=
  ⟨(load_success_marks_loaded_and_clears_container c4Elem _ rfl).1,
   (load_success_marks_loaded_and_clears_container c4Elem _ rfl).2.2.1⟩

/-- The concrete element used for C5: already marked `loaded`, at level 0,
with a distinct alternate source configured. -/
def c5Elem : Img :=
  { src := "images/stock/hero/a.png"
    fallbackSrc := some "images/hero-bg.jpg"
    fallbackLevel := 0
    classes := ["loaded"]
    displayNone := false
    category := "hero"
    imageName := "a"
    container := none }

/-- C5 counterexample: an element already marked `loaded` at level 0 still has
its `fallbackLevel` advanced (0 to 1) by a subsequently processed failure
event — the failure handler never consults the loaded mark, contradicting the
claim that a loaded element's `fallbackLevel` no longer changes. -/
theorem loaded_mark_does_not_freeze_level :
    "loaded" ∈ c5Elem.classes
    ∧ c5Elem.fallbackLevel = 0
    ∧ (handleEnhancedImageError c5Elem).fallbackLevel = 1 := by decide

/-- C5 amended: once an element has failed (`handleFinalFallback`, level 3),
its `fallbackLevel` never changes under further failure events; but the
`loaded` mark alone does not freeze the level — the failure handler's level
transition is entirely independent of the element's class list, so a failure
event processed after a successful load can still advance `fallbackLevel`. -/
theorem failed_level_frozen_but_loaded_not_consulted (t s : Img) (cs : List String) :
    (handleEnhancedImageError (handleFinalFallback t)).fallbackLevel
      = (handleFinalFallback t).fallbackLevel
    ∧ (handleEnhancedImageError { s with classes := cs }).fallbackLevel
      = (handleEnhancedImageError s).fallbackLevel := by
  constructor
  · rw [level_handleEnhancedImageError]
    have h3 : (handleFinalFallback t).fallbackLevel = 3 := rfl
    simp [h3]
  · rw [level_handleEnhancedImageError, level_handleEnhancedImageError]
    have hd : hasDistinctFallback { s with classes := cs } = hasDistinctFallback s := rfl
    have hl : ({ s with classes := cs } : Img).fallbackLevel = s.fallbackLevel := rfl
    rw [hd, hl]

/-! ### The degraded unit built when per-image metadata is absent -/

theorem createPictureElement_of_absent (md : Metadata) (w : Bool)
    (category imageName className : String) (eager : Bool)
    (h : lookupImage md category imageName = none) :
    createPictureElement md w category imageName className eager
      = createFallbackPictureElement category imageName className eager := by
  unfold createPictureElement
  rw [h]

theorem getFallbackImage_hero : getFallbackImage "hero" = "images/hero-bg.jpg" := by decide

theorem getFallbackImage_services :
    getFallbackImage "services" = "images/residential-service.jpg" := by decide

theorem getFallbackImage_about : getFallbackImage "about" = "images/radius-logo2.png" := by decide

theorem getFallbackImage_reviews : getFallbackImage "reviews" = "images/hero-bg.jpg" := by decide

theorem generateAltText_hero (n : String) :
    generateAltText "hero" n
      = "Professional plumbing services Milwaukee - " ++ replaceHyphens n := by
  unfold generateAltText
  rw [if_pos rfl]

theorem generateAltText_services (n : String) :
    generateAltText "services" n
      = replaceHyphens n ++ " - Radius Works Milwaukee plumbing services" := by
  unfold generateAltText
  rw [if_neg (by decide), if_pos rfl]

theorem generateAltText_about (n : String) :
    generateAltText "about" n = "Radius Works team - " ++ replaceHyphens n := by
  unfold generateAltText
  rw [if_neg (by decide), if_neg (by decide), if_pos rfl]

theorem generateAltText_reviews (n : String) :
    generateAltText "reviews" n = "Customer satisfaction - " ++ replaceHyphens n := by
  unfold generateAltText
  rw [if_neg (by decide), if_neg (by decide), if_neg (by decide), if_pos rfl]

/-- C6 counterexample: for the services category the generated alt text places
the transformed name FIRST and the category phrase last, so it does not match
the claimed template with the category phrase first — in particular it does
not even end with the transformed name, which any phrase-first rendering
would. -/
theorem services_alt_text_not_phrase_first :
    (createPictureElement createFallbackMetadata false "services" "drain-cleaning" "" false).imgAlt
      = "drain cleaning - Radius Works Milwaukee plumbing services"
    ∧ List.isSuffixOf (" - drain cleaning").data
        (createPictureElement createFallbackMetadata false "services" "drain-cleaning" "" false).imgAlt.data
      = false := by decide

/-- C6 amended: building a unit for a category/name absent from the metadata
yields the category's generic fallback path as the base source; the alt text
follows the generated template with the category phrase first for hero, about
and reviews, but with the order reversed (transformed name first, then the
category phrase) for services. -/
theorem absent_metadata_unit_src_and_alt (md : Metadata) (name className : String)
    (w eager : Bool)
    (hh : lookupImage md "hero" name = none)
    (hs : lookupImage md "services" name = none)
    (ha : lookupImage md "about" name = none)
    (hr : lookupImage md "reviews" name = none) :
    ((createPictureElement md w "hero" name className eager).imgSrc = "images/hero-bg.jpg"
      ∧ (createPictureElement md w "hero" name className eager).imgAlt
          = "Professional plumbing services Milwaukee - " ++ replaceHyphens name)
    ∧ ((createPictureElement md w "services" name className eager).imgSrc
          = "images/residential-service.jpg"
      ∧ (createPictureElement md w "services" name className eager).imgAlt
          = replaceHyphens name ++ " - Radius Works Milwaukee plumbing services")
    ∧ ((createPictureElement md w "about" name className eager).imgSrc = "images/radius-logo2.png"
      ∧ (createPictureElement md w "about" name className eager).imgAlt
          = "Radius Works team - " ++ replaceHyphens name)
    ∧ ((createPictureElement md w "reviews" name className eager).imgSrc = "images/hero-bg.jpg"
      ∧ (createPictureElement md w "reviews" name className eager).imgAlt
          = "Customer satisfaction - " ++ replaceHyphens name) := by
  rw [createPictureElement_of_absent md w "hero" name className eager hh,
      createPictureElement_of_absent md w "services" name className eager hs,
      createPictureElement_of_absent md w "about" name className eager ha,
      createPictureElement_of_absent md w "reviews" name className eager hr]
  refine ⟨⟨?_, ?_⟩, ⟨?_, ?_⟩, ⟨?_, ?_⟩, ⟨?_, ?_⟩⟩ <;>
    simp [createFallbackPictureElement, getFallbackImage_hero, getFallbackImage_services,
      getFallbackImage_about, getFallbackImage_reviews, generateAltText_hero,
      generateAltText_services, generateAltText_about, generateAltText_reviews]

/-- Witness for the amended C6 at the skeleton metadata and a concrete name. -/
theorem absent_metadata_unit_src_and_alt_witness :
    (createPictureElement createFallbackMetadata false "hero" "drain-cleaning" "" false).imgSrc
      = "images/hero-bg.jpg"
    ∧ (createPictureElement createFallbackMetadata false "services" "drain-cleaning" "" false).imgAlt
      = replaceHyphens "drain-cleaning" ++ " - Radius Works Milwaukee plumbing services" :=
  ⟨(absent_metadata_unit_src_and_alt createFallbackMetadata "drain-cleaning" "" false false
      (by decide) (by decide) (by decide) (by decide)).1.1,
   (absent_metadata_unit_src_and_alt createFallbackMetadata "drain-cleaning" "" false false
      (by decide) (by decide) (by decide) (by decide)).2.1.2⟩

/-! ### Format negotiation in the picture element builder -/

theorem sources_createPictureElement (md : Metadata) (ws : Bool)
    (category imageName className : String) (eager : Bool)
    (data : ImageData) (h : lookupImage md category imageName = some data) :
    (createPictureElement md ws category imageName className eager).sources =
      (match data.webp with
       | some w =>
         if truthy w && ws then
           [{ srcset := w, mimeType := "image/webp", format := "webp" }]
         else []
       | none => [])
      ++ (match data.optimized with
       | some o =>
         if truthy o then
           [{ srcset := o, mimeType := getImageMimeType o, format := "standard" }]
         else []
       | none => []) := by
  unfold createPictureElement
  rw [h]

/-- C7: for a record with a modern-format (WebP) source, a supporting probe
makes the builder emit a WebP candidate as the first source — strictly before
any standard candidate — while a non-supporting probe makes it emit no WebP
candidate at all. -/
theorem webp_candidate_ordered_first_or_omitted (md : Metadata)
    (category imageName className : String) (eager : Bool)
    (data : ImageData) (w : String)
    (hlook : lookupImage md category imageName = some data)
    (hw : data.webp = some w) (htw : truthy w = true) :
    (∃ s, (createPictureElement md true category imageName className eager).sources.head?
        = some s ∧ s.format = "webp")
    ∧ (∀ (i : Nat) (s : PicSource),
        (createPictureElement md true category imageName className eager).sources[i]? = some s
        → s.format = "standard" → 1 ≤ i)
    ∧ (∀ s ∈ (createPictureElement md false category imageName className eager).sources,
        s.format ≠ "webp") := by
  rw [sources_createPictureElement md true category imageName className eager data hlook,
      sources_createPictureElement md false category imageName className eager data hlook]
  rw [hw]
  simp only [htw, Bool.true_and, Bool.and_true, Bool.and_false, if_true, if_false]
  refine ⟨⟨_, rfl, rfl⟩, ?_, ?_⟩
  · intro i s hst hfmt
    cases i with
    | zero =>
      simp at hst
      rw [← hst] at hfmt
      simp at hfmt
    | succ j => omega
  · intro s hs
    cases hop : data.optimized with
    | none =>
      rw [hop] at hs
      simp at hs
    | some o =>
      rw [hop] at hs
      by_cases hto : truthy o = true
      · simp [hto] at hs
        rw [hs]
        show ("standard" : String) ≠ "webp"
        decide
      · simp [hto] at hs

/-- The concrete image record used to instantiate C7: both a WebP and an
optimized source present. -/
def c7Data : ImageData :=
  { src := "images/stock/hero/pic.png"
    webp := some "images/optimized/hero/pic.webp"
    optimized := some "images/optimized/hero/pic.png"
    alt := some "Pic"
    priority := some "high" }

/-- The concrete metadata used to instantiate C7: one hero record. -/
def c7Md : Metadata :=
  { categories := [("hero", [("pic", c7Data)])]
    seo := { openGraph := { defaultImage := "images/stock/hero/hero-main-plumber.png" } } }

/-- Witness for C7 at the concrete metadata. -/
theorem webp_candidate_ordered_first_or_omitted_witness :
    (∃ s, (createPictureElement c7Md true "hero" "pic" "" false).sources.head?
        = some s ∧ s.format = "webp")
    ∧ (∀ s ∈ (createPictureElement c7Md false "hero" "pic" "" false).sources,
        s.format ≠ "webp") :=
  ⟨(webp_candidate_ordered_first_or_omitted c7Md "hero" "pic" "" false c7Data
      "images/optimized/hero/pic.webp" (by decide) rfl (by decide)).1,
   (webp_candidate_ordered_first_or_omitted c7Md "hero" "pic" "" false c7Data
      "images/optimized/hero/pic.webp" (by decide) rfl (by decide)).2.2⟩

/-! ### Stats recorder and metadata loading -/

/-- C8: starting from an empty recorder, recording (hero, x, 1) then
(hero, x, 2) yields for key hero/x a count of 2 and levels [1, 2]; and a
reset leaves the mapping empty. -/
theorem stats_record_twice_then_reset :
    trackFallbackUsage (some (trackFallbackUsage none "hero" "x" 1)) "hero" "x" 2
      = [("hero/x", { levels := [1, 2], count := 2 })]
    ∧ ∀ stats : Option FallbackStats, applyStatsOp stats StatsOp.reset = some [] := by
  constructor
  · decide
  · intro stats
    rfl

/-- C9: a failing metadata fetch never propagates an exception — the loader
substitutes the skeleton whose four category entries are empty mappings plus
the default social-preview entry, and logs a warning. -/
theorem metadata_failure_substitutes_skeleton (e : String) :
    loadImageMetadata (Except.error e)
      = (createFallbackMetadata, ["Could not load image metadata, using fallback system"])
    ∧ createFallbackMetadata.categories
      = [("hero", []), ("services", []), ("about", []), ("reviews", [])]
    ∧ createFallbackMetadata.seo.openGraph.defaultImage
      = "images/stock/hero/hero-main-plumber.png" :=
  ⟨rfl, rfl, rfl⟩

/-! ### The stats recorder invariant -/

theorem updateEntry_fst (key : String) (l : Nat) (p : String × FallbackStat) :
    (updateEntry key l p).1 = p.1 := by
  unfold updateEntry
  split <;> rfl

theorem find?_map_updateEntry (key : String) (l : Nat) (k : String) (s : FallbackStats) :
    (s.map (updateEntry key l)).find? (fun p => p.1 == k)
      = (s.find? (fun p => p.1 == k)).map (updateEntry key l) := by
  induction s with
  | nil => rfl
  | cons a t ih =>
    simp only [List.map_cons, List.find?_cons, updateEntry_fst]
    cases hc : (a.1 == k) with
    | true => simp [hc]
    | false => simp [hc, ih]

/-- The accumulator invariant: each entry's count equals the length of its
observed-levels sequence. -/
def statsWF (s : FallbackStats) : Prop :=
  ∀ p ∈ s, p.2.count = p.2.levels.length

theorem statsWF_trackFallbackUsage (o : Option FallbackStats) (c n : String) (l : Nat)
    (h : statsWF (o.getD [])) : statsWF (trackFallbackUsage o c n l) := by
  unfold trackFallbackUsage
  intro p hp
  simp only [List.mem_map] at hp
  obtain ⟨q, hq, hpq⟩ := hp
  have hq2 : q.2.count = q.2.levels.length := by
    split at hq
    · exact h q hq
    · rcases List.mem_append.mp hq with hql | hqr
      · exact h q hql
      · simp only [List.mem_singleton] at hqr
        rw [hqr]
        rfl
  rw [← hpq]
  unfold updateEntry
  split
  · show q.2.count + 1 = (q.2.levels ++ [l]).length
    simp [hq2]
  · exact hq2

theorem statsWF_runStatsOps (ops : List StatsOp) :
    ∀ o : Option FallbackStats, statsWF (o.getD []) → statsWF ((runStatsOps o ops).getD []) := by
  induction ops with
  | nil =>
    intro o h
    exact h
  | cons op rest ih =>
    intro o h
    show statsWF ((runStatsOps (applyStatsOp o op) rest).getD [])
    apply ih
    cases op with
    | record c n l => exact statsWF_trackFallbackUsage o c n l h
    | reset =>
      intro p hp
      simp [applyStatsOp, resetFallbackStats] at hp

theorem lookupStat_trackFallbackUsage (o : Option FallbackStats) (c n : String) (l : Nat) :
    lookupStat (trackFallbackUsage o c n l) (c ++ "/" ++ n)
      = some { levels := ((lookupStat (o.getD []) (c ++ "/" ++ n)).getD
                  { levels := [], count := 0 }).levels ++ [l]
               count := ((lookupStat (o.getD []) (c ++ "/" ++ n)).getD
                  { levels := [], count := 0 }).count + 1 } := by
  unfold trackFallbackUsage lookupStat
  rw [find?_map_updateEntry]
  by_cases hf : ((o.getD []).find? (fun p => p.1 == c ++ "/" ++ n)).isSome = true
  · rw [if_pos hf]
    obtain ⟨q, hq⟩ := Option.isSome_iff_exists.mp hf
    rw [hq]
    have hqk' := List.find?_some hq
    have hqk : (q.1 == c ++ "/" ++ n) = true := hqk'
    simp [updateEntry, hqk]
  · have hnone : (o.getD []).find? (fun p => p.1 == c ++ "/" ++ n) = none := by
      rcases ho : (o.getD []).find? (fun p => p.1 == c ++ "/" ++ n) with _ | q
      · exact ho
      · rw [ho] at hf
        simp at hf
    rw [if_neg hf, List.find?_append, hnone]
    simp [hnone, updateEntry]

/-- C10: after any sequence of record and reset operations starting from the
initial (undefined) accumulator, every entry's count equals the length of its
observed-levels sequence; and a single record call replaces the key's entry by
one with exactly one more level appended and the count incremented by one. -/
theorem stats_count_matches_levels_and_single_record (ops : List StatsOp)
    (o : Option FallbackStats) (c n : String) (l : Nat)
    (p : String × FallbackStat) (hp : p ∈ (runStatsOps none ops).getD []) :
    p.2.count = p.2.levels.length
    ∧ lookupStat (trackFallbackUsage o c n l) (c ++ "/" ++ n)
      = some { levels := ((lookupStat (o.getD []) (c ++ "/" ++ n)).getD
                  { levels := [], count := 0 }).levels ++ [l]
               count := ((lookupStat (o.getD []) (c ++ "/" ++ n)).getD
                  { levels := [], count := 0 }).count + 1 } :=
  ⟨statsWF_runStatsOps ops none (fun q hq => absurd hq (List.not_mem_nil q)) p hp,
   lookupStat_trackFallbackUsage o c n l⟩

/-- The concrete operation sequence used to instantiate C10. -/
def c10Ops : List StatsOp :=
  [StatsOp.record "hero" "x" 1, StatsOp.record "hero" "x" 2]

/-- Witness for C10 at a concrete operation sequence and a concrete record call. -/
theorem stats_count_matches_levels_and_single_record_witness :
    (2 : Nat) = ([1, 2] : List Nat).length
    ∧ lookupStat (trackFallbackUsage none "hero" "y" 0) ("hero" ++ "/" ++ "y")
      = some { levels := ((lookupStat ((none : Option FallbackStats).getD [])
                  ("hero" ++ "/" ++ "y")).getD { levels := [], count := 0 }).levels ++ [0]
               count := ((lookupStat ((none : Option FallbackStats).getD [])
                  ("hero" ++ "/" ++ "y")).getD { levels := [], count := 0 }).count + 1 } := by
  have h := stats_count_matches_levels_and_single_record c10Ops none "hero" "y" 0
    ("hero/x", { levels := [1, 2], count := 2 }) (by decide)
  exact ⟨h.1, h.2⟩

end ImageEnhancements
